import Mathlib

/-
Verification of the datadog-custom-costs pipelines (neon_costs.py,
github_costs.py, datadog_uploader.py) against their specification.

Modelling conventions:
- Python Decimal values are modelled as exact rationals.  Every Decimal
  operation appearing in the sources stays well inside the default context
  precision of 28 significant digits at each input used in a theorem of this
  file, so the exact-rational model agrees with Python there.
- Python float is IEEE binary64; a float value is modelled by its exact
  rational value.  Conversion float(x) is modelled by pyFloat, the
  round-to-nearest, ties-to-even rounding to a 53-bit significand.  The
  exponent is unbounded: overflow and subnormal underflow lie far outside the
  monetary ranges handled by this program and are not modelled.
- Network calls are modelled by passing the data a call would return as an
  argument (a page list for pagination, a topics function for repository
  metadata, a name map for project metadata).  An HTTP failure of a metadata
  call is modelled by the value the exception handler returns (an empty
  dictionary), exactly as in the sources.
-/

/-- Round a rational to the nearest integer, ties to even. -/
def roundHalfEven (x : ℚ) : ℤ :=
  let f := ⌊x⌋
  let r := x - (f : ℚ)
  if r < 1/2 then f
  else if 1/2 < r then f + 1
  else if f % 2 = 0 then f else f + 1

/-- Model of Python float(x): round to nearest binary64 value
(53-bit significand, ties to even, unbounded exponent). -/
def pyFloat (q : ℚ) : ℚ :=
  if q = 0 then 0
  else
    let a : ℚ := |q|
    let e : ℤ := Int.log 2 a - 52
    let m : ℤ := roundHalfEven (a * (2 : ℚ) ^ (-e))
    (if q < 0 then (-1 : ℚ) else 1) * (m : ℚ) * (2 : ℚ) ^ e

/-- Model of Python float addition (the sum is rounded back to binary64). -/
def pyAdd (a b : ℚ) : ℚ := pyFloat (a + b)

theorem pyFloat_zero : pyFloat 0 = 0 := by
  simp [pyFloat]

theorem roundHalfEven_ge_floor (x : ℚ) : ⌊x⌋ ≤ roundHalfEven x := by
  simp only [roundHalfEven]
  split_ifs <;> omega

theorem pyFloat_pos {q : ℚ} (h : 0 < q) : 0 < pyFloat q := by
  unfold pyFloat
  rw [if_neg (ne_of_gt h), if_neg (not_lt.mpr h.le)]
  have habs : |q| = q := abs_of_pos h
  set e : ℤ := Int.log 2 |q| - 52 with he
  have hq2 : (2 : ℚ) ^ Int.log 2 |q| ≤ |q| := by
    have := Int.zpow_log_le_self (b := 2) (r := |q|) (by norm_num) (by positivity)
    simpa using this
  have hscaled : (2 : ℚ) ^ (52 : ℤ) ≤ |q| * (2 : ℚ) ^ (-e) := by
    have hpow : (0 : ℚ) < (2 : ℚ) ^ (-e) := by positivity
    calc (2 : ℚ) ^ (52 : ℤ) = (2 : ℚ) ^ Int.log 2 |q| * (2 : ℚ) ^ (-e) := by
          rw [← zpow_add₀ (by norm_num : (2 : ℚ) ≠ 0)]
          congr 1
          omega
      _ ≤ |q| * (2 : ℚ) ^ (-e) := by
          exact mul_le_mul_of_nonneg_right hq2 hpow.le
  have hone : (1 : ℚ) ≤ |q| * (2 : ℚ) ^ (-e) := le_trans (by norm_num) hscaled
  have hfloor : (1 : ℤ) ≤ ⌊|q| * (2 : ℚ) ^ (-e)⌋ := by
    exact Int.le_floor.mpr (by exact_mod_cast hone)
  have hm : (1 : ℤ) ≤ roundHalfEven (|q| * (2 : ℚ) ^ (-e)) :=
    le_trans hfloor (roundHalfEven_ge_floor _)
  have hmq : (1 : ℚ) ≤ (roundHalfEven (|q| * (2 : ℚ) ^ (-e)) : ℚ) := by
    exact_mod_cast hm
  have hzp : (0 : ℚ) < (2 : ℚ) ^ e := by positivity
  calc (0 : ℚ) < (roundHalfEven (|q| * (2 : ℚ) ^ (-e)) : ℚ) * (2 : ℚ) ^ e := by
        exact mul_pos (lt_of_lt_of_le one_pos hmq) hzp
    _ = 1 * (roundHalfEven (|q| * (2 : ℚ) ^ (-e)) : ℚ) * (2 : ℚ) ^ e := by ring

theorem pyFloat_dyadic (q : ℚ) : ∃ (k e : ℤ), pyFloat q = (k : ℚ) * (2 : ℚ) ^ e := by
  unfold pyFloat
  by_cases h0 : q = 0
  · exact ⟨0, 0, by simp [h0]⟩
  · rw [if_neg h0]
    by_cases hneg : q < 0
    · refine ⟨-(roundHalfEven (|q| * (2 : ℚ) ^ (-(Int.log 2 |q| - 52)))), Int.log 2 |q| - 52, ?_⟩
      rw [if_pos hneg]
      push_cast
      ring
    · refine ⟨roundHalfEven (|q| * (2 : ℚ) ^ (-(Int.log 2 |q| - 52))), Int.log 2 |q| - 52, ?_⟩
      rw [if_neg hneg]
      ring

theorem not_dyadic_111_500 : ∀ (k e : ℤ), ((111 : ℚ)/500) ≠ (k : ℚ) * (2 : ℚ) ^ e := by
  intro k e h
  rcases le_or_lt 0 e with he | he
  · lift e to ℕ using he
    rw [zpow_natCast] at h
    have hcast : ((111 : ℚ)/500) = ((k * 2 ^ e : ℤ) : ℚ) := by push_cast; linarith
    have hden : ((111 : ℚ)/500).den = 1 := by rw [hcast]; exact Rat.den_intCast _
    norm_num at hden
  · set n : ℕ := (-e).toNat with hn
    have hen : e = -(n : ℤ) := by omega
    rw [hen, zpow_neg, zpow_natCast] at h
    have h2 : (0 : ℚ) < 2 ^ n := by positivity
    have hmul : (111 : ℚ) * 2 ^ n = 500 * k := by
      field_simp at h
      linarith
    have hz : (111 : ℤ) * 2 ^ n = 500 * k := by exact_mod_cast hmul
    have h5 : (5 : ℤ) ∣ 111 * 2 ^ n := ⟨100 * k, by linarith⟩
    have hp : Prime (5 : ℤ) := by norm_num
    rcases hp.dvd_mul.mp h5 with h51 | h52
    · omega
    · have : (5 : ℤ) ∣ 2 := hp.dvd_of_dvd_pow h52
      omega

theorem pyFloat_111_500_ne : pyFloat (111/500) ≠ 111/500 := by
  intro h
  obtain ⟨k, e, hk⟩ := pyFloat_dyadic (111/500)
  exact not_dyadic_111_500 k e (h ▸ hk)

/- ===== Calendar (Python calendar.monthrange and strftime) ===== -/

/-- Gregorian leap-year test, as used by calendar.monthrange. -/
def isLeapYear (y : ℕ) : Bool :=
  y % 4 = 0 && (y % 100 ≠ 0 || y % 400 = 0)

/-- Number of days of a calendar month: calendar.monthrange(year, month)[1]. -/
def daysInMonth (year month : ℕ) : ℕ :=
  if month = 2 then (if isLeapYear year then 29 else 28)
  else if month = 4 ∨ month = 6 ∨ month = 9 ∨ month = 11 then 30
  else 31

/-- A calendar date, as held by a Python datetime (time of day irrelevant here). -/
structure PyDate where
  year : ℕ
  month : ℕ
  day : ℕ
deriving DecidableEq

def padTo (width : ℕ) (n : ℕ) : String :=
  let s := toString n
  if s.length < width then String.mk (List.replicate (width - s.length) '0') ++ s else s

/-- strftime("%Y-%m-%d") on a date. -/
def formatDate (d : PyDate) : String :=
  padTo 4 d.year ++ "-" ++ padTo 2 d.month ++ "-" ++ padTo 2 d.day

/- ===== FOCUS records and tag values ===== -/

/-- A value stored in a Tags dictionary.  str holds a string written as-is;
num denotes str(x) of a numeric value applied at serialization; fixedFmt p x
denotes the fixed-point rendering of x with p decimal places. -/
inductive TagVal
  | str (s : String)
  | num (q : ℚ)
  | fixedFmt (places : ℕ) (q : ℚ)
deriving DecidableEq

/-- A FOCUS cost record as synthesized by both pipelines.  billedCost holds
the exact rational value of the Python float stored under BilledCost. -/
structure FocusRecord where
  providerName : String
  chargeDescription : String
  chargePeriodStart : String
  chargePeriodEnd : String
  billedCost : ℚ
  billingCurrency : String
  tags : List (String × TagVal)
deriving DecidableEq

/-- First tag stored under a key (all tag lists built by the pipelines use
distinct keys, matching Python dict insertion). -/
def getTag (r : FocusRecord) (k : String) : Option TagVal :=
  (r.tags.find? (fun kv => kv.1 == k)).map (fun kv => kv.2)

/-- A JSON-level value inside a record dictionary handed to the uploader. -/
inductive PyVal
  | str (s : String)
  | num (q : ℚ)
  | tagMap (ts : List (String × TagVal))
deriving DecidableEq

/-- A cost record as a plain dictionary, the shape upload_costs and
validate_focus_format receive. -/
abbrev FocusDict : Type := List (String × PyVal)

/-- The dictionary written for a synthesized record. -/
def FocusRecord.toDict (r : FocusRecord) : FocusDict :=
  [("ProviderName", PyVal.str r.providerName),
   ("ChargeDescription", PyVal.str r.chargeDescription),
   ("ChargePeriodStart", PyVal.str r.chargePeriodStart),
   ("ChargePeriodEnd", PyVal.str r.chargePeriodEnd),
   ("BilledCost", PyVal.num r.billedCost),
   ("BillingCurrency", PyVal.str r.billingCurrency),
   ("Tags", PyVal.tagMap r.tags)]

/- ===== datadog_uploader.py ===== -/

/-- Python truthiness of an optional string credential. -/
def pyTruthy (s : Option String) : Bool :=
  match s with
  | some v => v ≠ ""
  | none => false

/-- Outcome of DatadogCostUploader.upload_costs up to the point where the
batch leaves the process.  returnedFalse covers the early returns (missing
credentials, empty input); submitted carries the exact payload written to the
upload file and PUT to the API.  The transport result of the PUT is the
responsibility of the external collaborator and is not modelled. -/
inductive UploadResult
  | returnedFalse (reason : String)
  | submitted (payload : List FocusDict)
deriving DecidableEq

/-- DatadogCostUploader.upload_costs: early-returns False on missing
credentials or empty input, otherwise serializes cost_data verbatim
(json.dump(cost_data, f)) and submits it.  No per-record validation or
filtering is applied anywhere in the body. -/
def upload_costs (api_key app_key : Option String) (cost_data : List FocusDict) :
    UploadResult :=
  if ¬ (pyTruthy api_key ∧ pyTruthy app_key) then
    UploadResult.returnedFalse "credentials not configured"
  else if cost_data.isEmpty then
    UploadResult.returnedFalse "no cost data"
  else
    UploadResult.submitted cost_data

/-- DatadogCostUploader.validate_focus_format: True iff each of the six
required fields is a key of the record. -/
def validate_focus_format (cost_record : FocusDict) : Bool :=
  ["ProviderName", "ChargeDescription", "ChargePeriodStart",
   "ChargePeriodEnd", "BilledCost", "BillingCurrency"].all
    (fun f => cost_record.any (fun kv => kv.1 == f))

/- ===== neon_costs.py : data model ===== -/

/-- One entry of the v2 metrics array: a JSON object read with
m.get("metric_name") and m.get("value", 0). -/
structure MetricEntry where
  metric_name : Option String
  value : Option ℚ
deriving DecidableEq

/-- One daily consumption record of the v2 API. -/
structure NeonDailyRecord where
  timeframe_start : Option String
  timeframe_end : Option String
  metrics : List MetricEntry
deriving DecidableEq

/-- One period of a project entry of the consumption endpoint. -/
structure NeonPeriod where
  consumption : List NeonDailyRecord
deriving DecidableEq

/-- One project entry of the consumption endpoint. -/
structure NeonProject where
  project_id : Option String
  periods : List NeonPeriod
deriving DecidableEq

/-- One page of the consumption endpoint: data.get("projects", []) and
data.get("pagination", {}).get("cursor"). -/
structure NeonPage where
  projects : List NeonProject
  cursor : Option String
deriving DecidableEq

/-- The normalized metric bag built by extract_daily_metrics. -/
structure DailyMetrics where
  timeframe_start : String
  timeframe_end : String
  compute_seconds : ℚ
  storage_bytes : ℚ
  root_branch_bytes : ℚ
  child_branch_bytes : ℚ
  public_transfer_bytes : ℚ
deriving DecidableEq

/-- The dictionary returned by calculate_daily_costs.  The nine rational
fields hold Python floats (every one is produced through float()). -/
structure DailyCosts where
  compute_cost : ℚ
  storage_cost : ℚ
  data_transfer_cost : ℚ
  compute_hours : ℚ
  storage_gb : ℚ
  public_transfer_gb : ℚ
  compute_rate : ℚ
  storage_rate : ℚ
  data_transfer_rate : ℚ
  days_in_month : ℕ
deriving DecidableEq

/-- The project info dictionary built in main for tagging. -/
structure ProjectInfo where
  id : String
  name : String
deriving DecidableEq

/-- Neon Scale-plan pricing constants (module-level PRICING dict, Decimal
literals). -/
structure PricingTable where
  compute_per_cu_hour : ℚ
  storage_per_gb_month : ℚ
  data_transfer_per_gb : ℚ
  branch_per_month : ℚ
  instant_restore_per_gb_month : ℚ

def PRICING : PricingTable :=
  { compute_per_cu_hour := 222/1000
    storage_per_gb_month := 35/100
    data_transfer_per_gb := 10/100
    branch_per_month := 3/2
    instant_restore_per_gb_month := 20/100 }

/- ===== neon_costs.py : metric extraction ===== -/

/-- metrics_lookup.get(name, 0) over the dictionary built from the v2 metrics
array.  Python dict assignment lets a later entry with the same name
override an earlier one, hence the reversed search. -/
def lookupMetric (entries : List MetricEntry) (name : String) : ℚ :=
  match entries.reverse.find? (fun e => e.metric_name == some name) with
  | some e => e.value.getD 0
  | none => 0

/-- NeonCostFetcher.extract_daily_metrics. -/
def extract_daily_metrics (daily_record : NeonDailyRecord) : DailyMetrics :=
  { timeframe_start := daily_record.timeframe_start.getD ""
    timeframe_end := daily_record.timeframe_end.getD ""
    compute_seconds := lookupMetric daily_record.metrics "compute_unit_seconds"
    storage_bytes :=
      lookupMetric daily_record.metrics "root_branch_bytes_month"
      + lookupMetric daily_record.metrics "child_branch_bytes_month"
    root_branch_bytes := lookupMetric daily_record.metrics "root_branch_bytes_month"
    child_branch_bytes := lookupMetric daily_record.metrics "child_branch_bytes_month"
    public_transfer_bytes := lookupMetric daily_record.metrics "public_network_transfer_bytes" }

/- ===== neon_costs.py : calculate_daily_costs ===== -/

/-- compute_hours = Decimal(str(compute_seconds)) / Decimal("3600"). -/
def computeHoursDec (m : DailyMetrics) : ℚ := m.compute_seconds / 3600

/-- compute_cost = compute_hours * PRICING["compute_per_cu_hour"]. -/
def computeCostDec (m : DailyMetrics) : ℚ :=
  computeHoursDec m * PRICING.compute_per_cu_hour

/-- storage_gb = Decimal(str(storage_bytes)) / Decimal("1073741824"). -/
def storageGbDec (m : DailyMetrics) : ℚ := m.storage_bytes / 1073741824

/-- storage_cost = (storage_gb * PRICING["storage_per_gb_month"]) /
Decimal(str(days_in_month)). -/
def storageCostDec (m : DailyMetrics) (date : PyDate) : ℚ :=
  (storageGbDec m * PRICING.storage_per_gb_month)
    / (daysInMonth date.year date.month : ℚ)

/-- public_transfer_gb = Decimal(str(public_transfer_bytes)) /
Decimal("1073741824"). -/
def publicTransferGbDec (m : DailyMetrics) : ℚ :=
  m.public_transfer_bytes / 1073741824

/-- data_transfer_cost = public_transfer_gb * PRICING["data_transfer_per_gb"]. -/
def dataTransferCostDec (m : DailyMetrics) : ℚ :=
  publicTransferGbDec m * PRICING.data_transfer_per_gb

/-- NeonCostFetcher.calculate_daily_costs: the Decimal computations above,
each converted through float() in the returned dictionary. -/
def calculate_daily_costs (metrics : DailyMetrics) (date : PyDate) : DailyCosts :=
  { compute_cost := pyFloat (computeCostDec metrics)
    storage_cost := pyFloat (storageCostDec metrics date)
    data_transfer_cost := pyFloat (dataTransferCostDec metrics)
    compute_hours := pyFloat (computeHoursDec metrics)
    storage_gb := pyFloat (storageGbDec metrics)
    public_transfer_gb := pyFloat (publicTransferGbDec metrics)
    compute_rate := pyFloat PRICING.compute_per_cu_hour
    storage_rate := pyFloat PRICING.storage_per_gb_month
    data_transfer_rate := pyFloat PRICING.data_transfer_per_gb
    days_in_month := daysInMonth date.year date.month }

/- ===== neon_costs.py : convert_to_focus ===== -/

/-- Split a character list at its last occurrence of sep: the model of
Python name.rsplit(sep, 1) when sep occurs in name (returns none exactly
when sep does not occur). -/
def rsplitChars (sep : Char) : List Char → Option (List Char × List Char)
  | [] => none
  | c :: cs =>
    match rsplitChars sep cs with
    | some (l, r) => some (c :: l, r)
    | none => if c = sep then some ([], cs) else none

/-- The service and env derivation of neon convert_to_focus, lines 287-296:
split the project name on its last hyphen; with no hyphen the whole name is
the service and env is "unknown". -/
def neonServiceEnv (project_name : String) : String × String :=
  match rsplitChars '-' project_name.toList with
  | some (l, r) => (String.mk l, String.mk r)
  | none => (project_name, "unknown")

/-- The project_tags dictionary built by neon convert_to_focus. -/
def neonProjectTags (project : Option ProjectInfo) : List (String × TagVal) :=
  match project with
  | none => []
  | some p =>
    [("project_id", TagVal.str p.id),
     ("project_name", TagVal.str p.name),
     ("service", TagVal.str (neonServiceEnv p.name).1),
     ("env", TagVal.str (neonServiceEnv p.name).2)]

/-- NeonCostFetcher.convert_to_focus: up to three records, one per charge
category, each emitted only under a strict-positivity check of its float
cost. -/
def neon_convert_to_focus (costs : DailyCosts) (metrics : DailyMetrics) (date : PyDate)
    (project : Option ProjectInfo) : List FocusRecord :=
  let charge_date := formatDate date
  let project_tags := neonProjectTags project
  (if costs.compute_cost > 0 then
    [{ providerName := "Neon"
       chargeDescription := "Compute"
       chargePeriodStart := charge_date
       chargePeriodEnd := charge_date
       billedCost := costs.compute_cost
       billingCurrency := "USD"
       tags := project_tags ++
         [("charge_type", TagVal.str "compute"),
          ("compute_hours", TagVal.fixedFmt 4 costs.compute_hours),
          ("rate_per_cu_hour", TagVal.num costs.compute_rate)] }]
   else []) ++
  (if costs.storage_cost > 0 then
    [{ providerName := "Neon"
       chargeDescription := "Storage"
       chargePeriodStart := charge_date
       chargePeriodEnd := charge_date
       billedCost := costs.storage_cost
       billingCurrency := "USD"
       tags := project_tags ++
         [("charge_type", TagVal.str "storage"),
          ("storage_gb", TagVal.fixedFmt 2 costs.storage_gb),
          ("rate_per_gb_month", TagVal.num costs.storage_rate)] }]
   else []) ++
  (if costs.data_transfer_cost > 0 then
    [{ providerName := "Neon"
       chargeDescription := "Data Transfer"
       chargePeriodStart := charge_date
       chargePeriodEnd := charge_date
       billedCost := costs.data_transfer_cost
       billingCurrency := "USD"
       tags := project_tags ++
         [("charge_type", TagVal.str "data_transfer"),
          ("public_transfer_gb", TagVal.fixedFmt 4 costs.public_transfer_gb),
          ("rate_per_gb", TagVal.num costs.data_transfer_rate)] }]
   else [])

/- ===== neon_costs.py : pagination driver ===== -/

/-- The while-True loop of fetch_projects_with_consumption, run against the
sequence of responses the endpoint returns: each iteration makes one call,
appends the page, and stops when the returned cursor is absent or empty
(Python: if not cursor: break).  Exhausting the response list while a cursor
still promises more pages cannot happen for a well-formed source and is
modelled as stopping. -/
def paginate (acc : List NeonProject) (calls : ℕ) :
    List NeonPage → List NeonProject × ℕ
  | [] => (acc, calls)
  | page :: rest =>
    match page.cursor with
    | none => (acc ++ page.projects, calls + 1)
    | some c =>
      if c = "" then (acc ++ page.projects, calls + 1)
      else paginate (acc ++ page.projects) (calls + 1) rest

/-- NeonCostFetcher.fetch_projects_with_consumption, returning the
accumulated all_projects list together with the number of upstream calls
made. -/
def fetch_projects_with_consumption (responses : List NeonPage) :
    List NeonProject × ℕ :=
  paginate [] 0 responses

/-- The page shape of the claim: every response but the last carries a
nonempty cursor, and the last carries none (or an empty one). -/
def ChainShape : List NeonPage → Prop
  | [] => False
  | [page] => page.cursor = none ∨ page.cursor = some ""
  | page :: rest => (∃ c, page.cursor = some c ∧ c ≠ "") ∧ ChainShape rest

/- ===== neon_costs.py : main ===== -/

/-- Lookup in the project_name_map dictionary (id -> name); a later duplicate
id would override an earlier one, hence the reversed search. -/
def lookupName (name_map : List (String × String)) (key : String) : Option String :=
  (name_map.reverse.find? (fun kv => kv.1 == key)).map (fun kv => kv.2)

/-- Decimal(str(c)) applied in main to a cost float c.  str of a float is its
shortest round-tripping decimal representation; this model identifies the
re-parsed decimal with the exact value of the float (the two differ by less
than one unit in the last decimal digit shown, and no statement in this file
depends on the distinction). -/
def decimalOfFloatStr (c : ℚ) : ℚ := c

/-- The body of the per-project loop of neon main: skip a project whose id is
absent from the metadata name map, skip a project without periods or
consumption, otherwise extract metrics from the first daily record, compute
costs, add the project cost into the running Decimal total and append the
FOCUS records. -/
def neonProcessProject (name_map : List (String × String)) (target_date : PyDate)
    (acc : List FocusRecord × ℚ) (project : NeonProject) :
    List FocusRecord × ℚ :=
  match project.project_id with
  | none => acc
  | some project_id =>
    match lookupName name_map project_id with
    | none => acc
    | some project_name =>
      match project.periods with
      | [] => acc
      | period :: _ =>
        match period.consumption with
        | [] => acc
        | daily_record :: _ =>
          let metrics := extract_daily_metrics daily_record
          let costs := calculate_daily_costs metrics target_date
          let project_cost :=
            decimalOfFloatStr costs.compute_cost
            + decimalOfFloatStr costs.storage_cost
            + decimalOfFloatStr costs.data_transfer_cost
          let project_info : ProjectInfo := { id := project_id, name := project_name }
          (acc.1 ++ neon_convert_to_focus costs metrics target_date (some project_info),
           acc.2 + project_cost)

/-- The per-project loop of neon main, accumulating all_focus_records and
total_org_cost. -/
def neonProcessProjects (name_map : List (String × String))
    (projects : List NeonProject) (target_date : PyDate) :
    List FocusRecord × ℚ :=
  projects.foldl (neonProcessProject name_map target_date) ([], 0)

/-- Python sum(record["BilledCost"] for record in records): a left fold of
float additions starting from 0. -/
def sumBilled (records : List FocusRecord) : ℚ :=
  records.foldl (fun acc r => pyAdd acc r.billedCost) 0

/-- Observable outcome of one neon main run: the synthesized batch, the
Decimal total_org_cost, the dry-run printed total (if printed), and the batch
handed to the upload sink (if handed). -/
structure NeonRunResult where
  batch : List FocusRecord
  totalOrgCost : ℚ
  printedTotal : Option ℚ
  sentToSink : Option (List FocusRecord)
deriving DecidableEq

/-- neon main after fetching: exits early when no projects were returned;
otherwise builds the batch and total, then either prints the batch and the
summed total (dry run) or hands the batch to uploader.upload_costs. -/
def neon_main (dry_run : Bool) (name_map : List (String × String))
    (projects : List NeonProject) (target_date : PyDate) : NeonRunResult :=
  if projects.isEmpty then
    { batch := [], totalOrgCost := 0, printedTotal := none, sentToSink := none }
  else
    let pr := neonProcessProjects name_map projects target_date
    if dry_run then
      { batch := pr.1, totalOrgCost := pr.2,
        printedTotal := some (sumBilled pr.1), sentToSink := none }
    else
      { batch := pr.1, totalOrgCost := pr.2,
        printedTotal := none, sentToSink := some pr.1 }

/- ===== github_costs.py ===== -/

/-- A usage item of the GitHub billing usage report, with the fields
convert_to_focus reads.  Absent keys are none; .get defaults are applied in
the conversion, as in the source. -/
structure GithubUsageItem where
  product : Option String
  sku : Option String
  repositoryName : Option String
  quantity : Option ℚ
  unitType : Option String
  pricePerUnit : Option ℚ
  netAmount : Option ℚ
deriving DecidableEq

/-- Python str.startswith(pre), on the character representation. -/
def pyStartsWith (pre s : String) : Bool :=
  pre.toList.isPrefixOf s.toList

/-- Python topic[8:], dropping the first 8 characters. -/
def pyDrop8 (s : String) : String :=
  String.mk (s.toList.drop 8)

/-- GitHubCostFetcher.convert_to_focus.  topicsOf models
get_repository_metadata(repo).get("topics", []): the topic list of the
repository, with [] both when the repository has no topics and when the
metadata call failed (the exception handler returns an empty dictionary).
The cost is Decimal(str(quantity)) * Decimal(str(pricePerUnit)) passed
through float(); netAmount is never part of the cost.  Each of the
unit_type, quantity, unit_price and net_amount tags is added only when its
value is truthy. -/
def github_convert_to_focus (topicsOf : String → List String)
    (usage_item : GithubUsageItem) (billing_start billing_end : PyDate) :
    FocusRecord :=
  let product := usage_item.product.getD "Unknown"
  let sku := usage_item.sku.getD "Unknown"
  let repository := usage_item.repositoryName.getD ""
  let quantity := usage_item.quantity.getD 0
  let unit_type := usage_item.unitType.getD ""
  let price_per_unit := usage_item.pricePerUnit.getD 0
  let net_amount := usage_item.netAmount.getD 0
  let billed_cost := quantity * price_per_unit
  let repo_tags :=
    if repository ≠ "" then
      let service :=
        match (topicsOf repository).find? (fun t => pyStartsWith "service-" t) with
        | some topic => pyDrop8 topic
        | none => repository
      [("repository", TagVal.str repository), ("service", TagVal.str service)]
    else []
  { providerName := "GitHub"
    chargeDescription := product
    chargePeriodStart := formatDate billing_start
    chargePeriodEnd := formatDate billing_end
    billedCost := pyFloat billed_cost
    billingCurrency := "USD"
    tags :=
      [("sku", TagVal.str sku)] ++ repo_tags ++
      (if unit_type ≠ "" then [("unit_type", TagVal.str unit_type)] else []) ++
      (if quantity ≠ 0 then [("quantity", TagVal.num quantity)] else []) ++
      (if price_per_unit ≠ 0 then [("unit_price", TagVal.num price_per_unit)] else []) ++
      (if net_amount ≠ 0 then [("net_amount", TagVal.num net_amount)] else []) }

/-- Observable outcome of one github main run. -/
structure GithubRunResult where
  batch : List FocusRecord
  printedTotal : Option ℚ
  sentToSink : Option (List FocusRecord)
deriving DecidableEq

/-- github main after fetching: returns early when no usage items were
returned; otherwise maps convert_to_focus over the items, then either prints
the batch and the summed total (dry run) or hands the batch to
uploader.upload_costs. -/
def github_main (dry_run : Bool) (topicsOf : String → List String)
    (usage_data : List GithubUsageItem) (billing_start billing_end : PyDate) :
    GithubRunResult :=
  if usage_data.isEmpty then
    { batch := [], printedTotal := none, sentToSink := none }
  else
    let focus_data :=
      usage_data.map (fun item => github_convert_to_focus topicsOf item billing_start billing_end)
    if dry_run then
      { batch := focus_data, printedTotal := some (sumBilled focus_data), sentToSink := none }
    else
      { batch := focus_data, printedTotal := none, sentToSink := some focus_data }

/- ===== Concrete fixtures shared by several theorems ===== -/

/-- One daily consumption record with exactly one CU-hour of compute and
nothing else. -/
def oneHourDailyRecord : NeonDailyRecord :=
  { timeframe_start := none
    timeframe_end := none
    metrics := [{ metric_name := some "compute_unit_seconds", value := some 3600 }] }

/-- A project with that single daily record. -/
def oneHourProject : NeonProject :=
  { project_id := some "p1"
    periods := [{ consumption := [oneHourDailyRecord] }] }

/-- The metric bag extracted from oneHourDailyRecord. -/
def oneHourMetrics : DailyMetrics :=
  { timeframe_start := ""
    timeframe_end := ""
    compute_seconds := 3600
    storage_bytes := 0
    root_branch_bytes := 0
    child_branch_bytes := 0
    public_transfer_bytes := 0 }

def someDate : PyDate := ⟨2026, 1, 5⟩

theorem extract_oneHour : extract_daily_metrics oneHourDailyRecord = oneHourMetrics := by
  have h1 : lookupMetric oneHourDailyRecord.metrics "compute_unit_seconds" = 3600 := rfl
  have h2 : lookupMetric oneHourDailyRecord.metrics "root_branch_bytes_month" = 0 := rfl
  have h3 : lookupMetric oneHourDailyRecord.metrics "child_branch_bytes_month" = 0 := rfl
  have h4 : lookupMetric oneHourDailyRecord.metrics "public_network_transfer_bytes" = 0 := rfl
  simp only [extract_daily_metrics, h1, h2, h3, h4, oneHourMetrics, DailyMetrics.mk.injEq]
  norm_num
  exact ⟨rfl, rfl⟩

theorem computeCostDec_oneHour : computeCostDec oneHourMetrics = 111/500 := by
  norm_num [computeCostDec, computeHoursDec, oneHourMetrics, PRICING]

theorem storageCostDec_oneHour : storageCostDec oneHourMetrics someDate = 0 := by
  norm_num [storageCostDec, storageGbDec, oneHourMetrics, PRICING]

theorem dataTransferCostDec_oneHour : dataTransferCostDec oneHourMetrics = 0 := by
  norm_num [dataTransferCostDec, publicTransferGbDec, oneHourMetrics, PRICING]

theorem computeHoursDec_oneHour : computeHoursDec oneHourMetrics = 1 := by
  norm_num [computeHoursDec, oneHourMetrics]

/-- The batch synthesized for oneHourMetrics is exactly one Compute record
whose cost is the float image of the exact decimal 0.222. -/
theorem neon_batch_oneHour (project : Option ProjectInfo) :
    neon_convert_to_focus (calculate_daily_costs oneHourMetrics someDate)
      oneHourMetrics someDate project
      = [{ providerName := "Neon"
           chargeDescription := "Compute"
           chargePeriodStart := formatDate someDate
           chargePeriodEnd := formatDate someDate
           billedCost := pyFloat (111/500)
           billingCurrency := "USD"
           tags := neonProjectTags project ++
             [("charge_type", TagVal.str "compute"),
              ("compute_hours", TagVal.fixedFmt 4 (pyFloat 1)),
              ("rate_per_cu_hour", TagVal.num (pyFloat (222/1000)))] }] := by
  have hpos : (0 : ℚ) < pyFloat (111/500) := pyFloat_pos (by norm_num)
  simp [neon_convert_to_focus, calculate_daily_costs, computeCostDec_oneHour,
        storageCostDec_oneHour, dataTransferCostDec_oneHour, computeHoursDec_oneHour,
        pyFloat_zero, hpos, PRICING]

/-- Claim C1 as stated is false: github convert_to_focus emits one record per
usage item unconditionally, so a usage item with zero quantity puts a record
with BilledCost equal to 0 into the batch handed to the sink. -/
theorem C1_counterexample :
    ∃ r, (github_main false (fun _ => [])
        [{ product := some "Actions"
           sku := some "Compute"
           repositoryName := some "api"
           quantity := some 0
           unitType := some "minutes"
           pricePerUnit := some 0
           netAmount := some 0 }] someDate someDate).sentToSink = some [r]
      ∧ r.billedCost = 0 := by
  refine ⟨github_convert_to_focus (fun _ => [])
    { product := some "Actions"
      sku := some "Compute"
      repositoryName := some "api"
      quantity := some 0
      unitType := some "minutes"
      pricePerUnit := some 0
      netAmount := some 0 } someDate someDate, rfl, ?_⟩
  show pyFloat ((0 : ℚ) * 0) = 0
  rw [show ((0 : ℚ) * 0) = 0 by norm_num, pyFloat_zero]

/-- Claim C1, amended: the neon synthesizer emits a record only when its cost
is strictly positive, while the github synthesizer emits exactly one record
per usage item unconditionally, so the zero-cost suppression holds for Neon
only. -/
theorem C1_zero_cost_policy :
    (∀ (costs : DailyCosts) (metrics : DailyMetrics) (date : PyDate)
       (project : Option ProjectInfo),
       ∀ r ∈ neon_convert_to_focus costs metrics date project, 0 < r.billedCost)
    ∧ (∀ (topicsOf : String → List String) (usage_data : List GithubUsageItem)
         (bs be : PyDate), usage_data ≠ [] →
         (github_main false topicsOf usage_data bs be).sentToSink
           = some (usage_data.map
               (fun item => github_convert_to_focus topicsOf item bs be))) := by
  constructor
  · intro costs metrics date project r hr
    simp only [neon_convert_to_focus] at hr
    rcases List.mem_append.mp hr with hr' | h3
    · rcases List.mem_append.mp hr' with h1 | h2
      · by_cases hc : costs.compute_cost > 0
        · rw [if_pos hc] at h1
          simp only [List.mem_singleton] at h1
          subst h1
          exact hc
        · rw [if_neg hc] at h1
          simp at h1
      · by_cases hc : costs.storage_cost > 0
        · rw [if_pos hc] at h2
          simp only [List.mem_singleton] at h2
          subst h2
          exact hc
        · rw [if_neg hc] at h2
          simp at h2
    · by_cases hc : costs.data_transfer_cost > 0
      · rw [if_pos hc] at h3
        simp only [List.mem_singleton] at h3
        subst h3
        exact hc
      · rw [if_neg hc] at h3
        simp at h3
  · intro topicsOf usage_data bs be hne
    simp [github_main, hne]

/-- Witness for the amended C1: for a cost dictionary with a positive compute
cost and the compute record it produces, the record is in the batch and its
cost is positive. -/
theorem C1_zero_cost_policy_witness :
    0 < ({ providerName := "Neon"
           chargeDescription := "Compute"
           chargePeriodStart := formatDate someDate
           chargePeriodEnd := formatDate someDate
           billedCost := 1
           billingCurrency := "USD"
           tags := [("charge_type", TagVal.str "compute"),
                    ("compute_hours", TagVal.fixedFmt 4 0),
                    ("rate_per_cu_hour", TagVal.num 0)] } : FocusRecord).billedCost := by
  refine C1_zero_cost_policy.1
    { compute_cost := 1, storage_cost := 0, data_transfer_cost := 0,
      compute_hours := 0, storage_gb := 0, public_transfer_gb := 0,
      compute_rate := 0, storage_rate := 0, data_transfer_rate := 0,
      days_in_month := 31 }
    oneHourMetrics someDate none _ ?_
  simp [neon_convert_to_focus, neonProjectTags]

/-- Claim C4 as stated is false: for a metric bag of exactly 3600 compute
seconds, the exact decimal product of quantity and rate is 0.222 = 111/500,
but the emitted BilledCost is its binary64 float image, which cannot equal
111/500 because 500 is not a power of two. -/
theorem C4_counterexample :
    computeCostDec oneHourMetrics = 111/500
    ∧ ∃ r ∈ neon_convert_to_focus (calculate_daily_costs oneHourMetrics someDate)
          oneHourMetrics someDate none,
        r.chargeDescription = "Compute" ∧ r.billedCost ≠ 111/500 := by
  refine ⟨computeCostDec_oneHour, ?_⟩
  refine ⟨{ providerName := "Neon"
            chargeDescription := "Compute"
            chargePeriodStart := formatDate someDate
            chargePeriodEnd := formatDate someDate
            billedCost := pyFloat (111/500)
            billingCurrency := "USD"
            tags := neonProjectTags none ++
              [("charge_type", TagVal.str "compute"),
               ("compute_hours", TagVal.fixedFmt 4 (pyFloat 1)),
               ("rate_per_cu_hour", TagVal.num (pyFloat (222/1000)))] }, ?_, rfl,
          pyFloat_111_500_ne⟩
  rw [neon_batch_oneHour none]
  exact List.mem_singleton_self _

/-- Claim C4, amended: the three cost amounts are computed in exact decimal
arithmetic inside calculate_daily_costs but are converted through float() in
the dictionary it returns, before record synthesis, so every emitted
BilledCost equals the binary64 rounding of the corresponding exact decimal
amount rather than the exact decimal product itself. -/
theorem C4_decimal_then_float (metrics : DailyMetrics) (date : PyDate)
    (project : Option ProjectInfo) :
    (calculate_daily_costs metrics date).compute_cost
      = pyFloat (computeCostDec metrics)
    ∧ (calculate_daily_costs metrics date).storage_cost
      = pyFloat (storageCostDec metrics date)
    ∧ (calculate_daily_costs metrics date).data_transfer_cost
      = pyFloat (dataTransferCostDec metrics)
    ∧ ∀ r ∈ neon_convert_to_focus (calculate_daily_costs metrics date)
          metrics date project,
        r.billedCost = pyFloat (computeCostDec metrics)
        ∨ r.billedCost = pyFloat (storageCostDec metrics date)
        ∨ r.billedCost = pyFloat (dataTransferCostDec metrics) := by
  refine ⟨rfl, rfl, rfl, ?_⟩
  intro r hr
  simp only [neon_convert_to_focus] at hr
  rcases List.mem_append.mp hr with hr' | h3
  · rcases List.mem_append.mp hr' with h1 | h2
    · by_cases hc : (calculate_daily_costs metrics date).compute_cost > 0
      · rw [if_pos hc] at h1
        simp only [List.mem_singleton] at h1
        subst h1
        exact Or.inl rfl
      · rw [if_neg hc] at h1
        simp at h1
    · by_cases hc : (calculate_daily_costs metrics date).storage_cost > 0
      · rw [if_pos hc] at h2
        simp only [List.mem_singleton] at h2
        subst h2
        exact Or.inr (Or.inl rfl)
      · rw [if_neg hc] at h2
        simp at h2
  · by_cases hc : (calculate_daily_costs metrics date).data_transfer_cost > 0
    · rw [if_pos hc] at h3
      simp only [List.mem_singleton] at h3
      subst h3
      exact Or.inr (Or.inr rfl)
    · rw [if_neg hc] at h3
      simp at h3

/-- Witness for the amended C4: the single record synthesized for the
one-CU-hour fixture carries the float image of one of its three exact decimal
amounts. -/
theorem C4_decimal_then_float_witness :
    ({ providerName := "Neon"
       chargeDescription := "Compute"
       chargePeriodStart := formatDate someDate
       chargePeriodEnd := formatDate someDate
       billedCost := pyFloat (111/500)
       billingCurrency := "USD"
       tags := neonProjectTags none ++
         [("charge_type", TagVal.str "compute"),
          ("compute_hours", TagVal.fixedFmt 4 (pyFloat 1)),
          ("rate_per_cu_hour", TagVal.num (pyFloat (222/1000)))] } : FocusRecord).billedCost
      = pyFloat (computeCostDec oneHourMetrics)
    ∨ ({ providerName := "Neon"
         chargeDescription := "Compute"
         chargePeriodStart := formatDate someDate
         chargePeriodEnd := formatDate someDate
         billedCost := pyFloat (111/500)
         billingCurrency := "USD"
         tags := neonProjectTags none ++
           [("charge_type", TagVal.str "compute"),
            ("compute_hours", TagVal.fixedFmt 4 (pyFloat 1)),
            ("rate_per_cu_hour", TagVal.num (pyFloat (222/1000)))] } : FocusRecord).billedCost
        = pyFloat (storageCostDec oneHourMetrics someDate)
    ∨ ({ providerName := "Neon"
         chargeDescription := "Compute"
         chargePeriodStart := formatDate someDate
         chargePeriodEnd := formatDate someDate
         billedCost := pyFloat (111/500)
         billingCurrency := "USD"
         tags := neonProjectTags none ++
           [("charge_type", TagVal.str "compute"),
            ("compute_hours", TagVal.fixedFmt 4 (pyFloat 1)),
            ("rate_per_cu_hour", TagVal.num (pyFloat (222/1000)))] } : FocusRecord).billedCost
        = pyFloat (dataTransferCostDec oneHourMetrics) := by
  refine (C4_decimal_then_float oneHourMetrics someDate none).2.2.2 _ ?_
  rw [neon_batch_oneHour none]
  exact List.mem_singleton_self _

/-- Claim C2 as stated is false for the neon pipeline: when the project
metadata fetch fails (fetch_project_metadata returns an empty dictionary),
every project is skipped by the id-in-map filter of main, so an entity with
nonzero consumption yields no record at all, while the same run with the
metadata present yields its records. -/
theorem C2_counterexample :
    (neon_main false [] [oneHourProject] someDate).batch = []
    ∧ (neon_main false [] [oneHourProject] someDate).sentToSink = some []
    ∧ (neon_main false [("p1", "db-prod")] [oneHourProject] someDate).batch ≠ [] := by
  refine ⟨rfl, rfl, ?_⟩
  have hstep : neonProcessProjects [("p1", "db-prod")] [oneHourProject] someDate
      = ([] ++ neon_convert_to_focus
            (calculate_daily_costs oneHourMetrics someDate) oneHourMetrics someDate
            (some { id := "p1", name := "db-prod" }),
         0 + (decimalOfFloatStr (calculate_daily_costs oneHourMetrics someDate).compute_cost
              + decimalOfFloatStr (calculate_daily_costs oneHourMetrics someDate).storage_cost
              + decimalOfFloatStr (calculate_daily_costs oneHourMetrics someDate).data_transfer_cost)) := by
    simp only [neonProcessProjects, List.foldl_cons, List.foldl_nil, neonProcessProject,
               oneHourProject, lookupName, extract_oneHour]
    rfl
  simp only [neon_main, List.isEmpty_cons, Bool.false_eq_true, if_false, hstep,
             List.nil_append]
  rw [neon_batch_oneHour (some { id := "p1", name := "db-prod" })]
  simp

/-- Claim C2, amended: a github repository metadata lookup failure (modelled
by an empty topic list, the value the exception handler produces) degrades to
default attribution, the repository name itself, and the record is still
emitted; in the neon pipeline however an empty project-name map (the value a
failed metadata fetch returns) makes main skip every project, dropping all
records and the whole total. -/
theorem C2_metadata_fallback :
    (∀ (topicsOf : String → List String) (item : GithubUsageItem)
       (bs be : PyDate) (repo : String),
       item.repositoryName = some repo → repo ≠ "" → topicsOf repo = [] →
       getTag (github_convert_to_focus topicsOf item bs be) "service"
         = some (TagVal.str repo))
    ∧ (∀ (projects : List NeonProject) (date : PyDate),
        neonProcessProjects [] projects date = ([], 0)) := by
  constructor
  · intro topicsOf item bs be repo hrepo hne htopics
    simp only [github_convert_to_focus, getTag, hrepo, Option.getD_some, htopics,
               List.find?_nil, if_pos hne]
    split_ifs <;> simp [List.find?, hne]
  · intro projects date
    induction projects with
    | nil => rfl
    | cons p ps ih =>
      have hp : neonProcessProject [] date ([], 0) p = ([], 0) := by
        cases hpid : p.project_id <;>
          simp [neonProcessProject, hpid, lookupName]
      show List.foldl (neonProcessProject [] date) ([], 0) (p :: ps) = ([], 0)
      rw [List.foldl_cons, hp]
      exact ih

/-- Witness for the amended C2: a repository whose metadata lookup produced
no topics is attributed to its own name, and an empty name map yields an
empty neon batch and zero total even for a project with consumption. -/
theorem C2_metadata_fallback_witness :
    getTag (github_convert_to_focus (fun _ => [])
        { product := some "Actions"
          sku := some "Compute"
          repositoryName := some "game-api"
          quantity := some 0
          unitType := some ""
          pricePerUnit := some 0
          netAmount := some 0 } someDate someDate) "service"
      = some (TagVal.str "game-api")
    ∧ neonProcessProjects [] [oneHourProject] someDate = ([], 0) := by
  constructor
  · exact C2_metadata_fallback.1 (fun _ => [])
      { product := some "Actions"
        sku := some "Compute"
        repositoryName := some "game-api"
        quantity := some 0
        unitType := some ""
        pricePerUnit := some 0
        netAmount := some 0 } someDate someDate "game-api" rfl (by decide) rfl
  · exact C2_metadata_fallback.2 [oneHourProject] someDate

/-- Claim C3 as stated is false: upload_costs never invokes
validate_focus_format (nothing in the repository does), so a record missing
the required ProviderName field is rejected by the validator yet is submitted
verbatim by upload_costs. -/
theorem C3_counterexample :
    validate_focus_format
      [("ChargeDescription", PyVal.str "Compute"),
       ("ChargePeriodStart", PyVal.str "2026-01-05"),
       ("ChargePeriodEnd", PyVal.str "2026-01-05"),
       ("BilledCost", PyVal.num 1),
       ("BillingCurrency", PyVal.str "USD")] = false
    ∧ upload_costs (some "dd-api-key") (some "dd-app-key")
        [[("ChargeDescription", PyVal.str "Compute"),
          ("ChargePeriodStart", PyVal.str "2026-01-05"),
          ("ChargePeriodEnd", PyVal.str "2026-01-05"),
          ("BilledCost", PyVal.num 1),
          ("BillingCurrency", PyVal.str "USD")]]
      = UploadResult.submitted
          [[("ChargeDescription", PyVal.str "Compute"),
            ("ChargePeriodStart", PyVal.str "2026-01-05"),
            ("ChargePeriodEnd", PyVal.str "2026-01-05"),
            ("BilledCost", PyVal.num 1),
            ("BillingCurrency", PyVal.str "USD")]] := by
  exact ⟨rfl, rfl⟩

/-- Claim C3, amended: validate_focus_format does reject a record missing any
of the six required fields, but upload_costs performs no per-record
validation: with credentials configured and a nonempty batch it submits the
batch verbatim, whatever the records contain. -/
theorem C3_validation_not_invoked :
    (∀ (api_key app_key : Option String) (cost_data : List FocusDict),
       pyTruthy api_key = true → pyTruthy app_key = true → cost_data ≠ [] →
       upload_costs api_key app_key cost_data = UploadResult.submitted cost_data)
    ∧ (∀ rec : FocusDict, (∀ kv ∈ rec, kv.1 ≠ "ProviderName") →
       validate_focus_format rec = false) := by
  constructor
  · intro api_key app_key cost_data h1 h2 h3
    have hne : cost_data.isEmpty = false := by
      cases cost_data with
      | nil => exact absurd rfl h3
      | cons a l => rfl
    simp [upload_costs, h1, h2, hne]
  · intro rec h
    have hany : rec.any (fun kv => kv.1 == "ProviderName") = false := by
      rw [List.any_eq_false]
      intro kv hkv
      simpa using h kv hkv
    simp [validate_focus_format, hany]

/-- Witness for the amended C3: a concrete credentialed upload submits its
batch verbatim, and the validator rejects the empty record. -/
theorem C3_validation_not_invoked_witness :
    upload_costs (some "dd-api-key") (some "dd-app-key")
        [[("ProviderName", PyVal.str "Neon")]]
      = UploadResult.submitted [[("ProviderName", PyVal.str "Neon")]]
    ∧ validate_focus_format ([] : FocusDict) = false := by
  constructor
  · exact C3_validation_not_invoked.1 (some "dd-api-key") (some "dd-app-key")
      [[("ProviderName", PyVal.str "Neon")]] (by decide) (by decide) (by decide)
  · exact C3_validation_not_invoked.2 [] (by intro kv hkv; cases hkv)

/-- Claim C6: for every metric bag and billing date, the daily storage cost
equals (storage_bytes / bytes_per_GB) * monthly_rate_per_GB / days_in_month,
where days_in_month is the actual day count (28 to 31) of the calendar month
of the billing date, not a fixed constant. -/
theorem C6_storage_proration (m : DailyMetrics) (y mo d : ℕ) :
    storageCostDec m ⟨y, mo, d⟩
      = (m.storage_bytes / 1073741824) * (35/100) / (daysInMonth y mo : ℚ)
    ∧ (calculate_daily_costs m ⟨y, mo, d⟩).storage_cost
      = pyFloat ((m.storage_bytes / 1073741824) * (35/100) / (daysInMonth y mo : ℚ))
    ∧ 28 ≤ daysInMonth y mo ∧ daysInMonth y mo ≤ 31
    ∧ daysInMonth 2024 2 = 29 ∧ daysInMonth 2023 2 = 28
    ∧ daysInMonth 2026 1 = 31 ∧ daysInMonth 2026 4 = 30 := by
  have hbounds : 28 ≤ daysInMonth y mo ∧ daysInMonth y mo ≤ 31 := by
    unfold daysInMonth
    split_ifs <;> omega
  refine ⟨?_, ?_, hbounds.1, hbounds.2, by decide, by decide, by decide, by decide⟩
  · simp [storageCostDec, storageGbDec, PRICING]
  · simp [calculate_daily_costs, storageCostDec, storageGbDec, PRICING]

/-- Claim C9: for the same fetched inputs, dry-run mode produces the same
record batch and total cost as the live run, the dry-run printed total is the
float sum over that batch, the live run hands exactly that batch to the
upload sink, and the dry run never invokes the sink. -/
theorem C9_dry_run_equivalence (name_map : List (String × String))
    (projects : List NeonProject) (target_date : PyDate)
    (topicsOf : String → List String) (usage_data : List GithubUsageItem)
    (billing_start billing_end : PyDate) :
    (neon_main true name_map projects target_date).batch
      = (neon_main false name_map projects target_date).batch
    ∧ (neon_main true name_map projects target_date).totalOrgCost
      = (neon_main false name_map projects target_date).totalOrgCost
    ∧ (neon_main true name_map projects target_date).sentToSink = none
    ∧ (neon_main false name_map projects target_date).sentToSink
      = (if projects.isEmpty then none
         else some ((neon_main true name_map projects target_date).batch))
    ∧ (neon_main true name_map projects target_date).printedTotal
      = (if projects.isEmpty then none
         else some (sumBilled ((neon_main false name_map projects target_date).batch)))
    ∧ (github_main true topicsOf usage_data billing_start billing_end).batch
      = (github_main false topicsOf usage_data billing_start billing_end).batch
    ∧ (github_main true topicsOf usage_data billing_start billing_end).sentToSink = none
    ∧ (github_main false topicsOf usage_data billing_start billing_end).sentToSink
      = (if usage_data.isEmpty then none
         else some ((github_main true topicsOf usage_data billing_start billing_end).batch))
    ∧ (github_main true topicsOf usage_data billing_start billing_end).printedTotal
      = (if usage_data.isEmpty then none
         else some (sumBilled ((github_main false topicsOf usage_data billing_start billing_end).batch))) := by
  by_cases hp : projects.isEmpty <;> by_cases hu : usage_data.isEmpty <;>
    simp [neon_main, github_main, hp, hu]

theorem paginate_chain (pages : List NeonPage) :
    ChainShape pages → ∀ (acc : List NeonProject) (calls : ℕ),
      paginate acc calls pages
        = (acc ++ (pages.map NeonPage.projects).flatten, calls + pages.length) := by
  induction pages with
  | nil => intro h; exact h.elim
  | cons page rest ih =>
    intro h acc calls
    cases rest with
    | nil =>
      have hc : page.cursor = none ∨ page.cursor = some "" := by
        simpa [ChainShape] using h
      rcases hc with hc | hc <;> simp [paginate, hc]
    | cons q rest2 =>
      have h2 : (∃ c, page.cursor = some c ∧ c ≠ "") ∧ ChainShape (q :: rest2) := by
        simpa [ChainShape] using h
      obtain ⟨⟨c, hc, hne⟩, hrest⟩ := h2
      have hstep : paginate acc calls (page :: q :: rest2)
          = paginate (acc ++ page.projects) (calls + 1) (q :: rest2) := by
        simp only [paginate, hc, if_neg hne]
      rw [hstep, ih hrest]
      simp
      omega

/-- Claim C8: against a source whose responses satisfy ChainShape (every
response but the last carries a nonempty cursor, the last an absent or empty
one), the pagination driver returns exactly the concatenation of all pages in
order and makes exactly one upstream call per page; a single first page with
zero entities and no cursor yields an empty result, not an error. -/
theorem C8_pagination (pages : List NeonPage) (h : ChainShape pages) :
    fetch_projects_with_consumption pages
      = ((pages.map NeonPage.projects).flatten, pages.length)
    ∧ fetch_projects_with_consumption [⟨[], none⟩] = ([], 1) := by
  constructor
  · have := paginate_chain pages h [] 0
    simpa [fetch_projects_with_consumption] using this
  · rfl

/-- Witness for C8: a three-page source (cursor, cursor, none) yields the
three pages of projects in order with exactly three upstream calls. -/
theorem C8_pagination_witness :
    fetch_projects_with_consumption
      [⟨[⟨some "p1", []⟩], some "cur1"⟩,
       ⟨[⟨some "p2", []⟩], some "cur2"⟩,
       ⟨[⟨some "p3", []⟩], none⟩]
      = ([⟨some "p1", []⟩, ⟨some "p2", []⟩, ⟨some "p3", []⟩], 3) := by
  have h : ChainShape
      [⟨[⟨some "p1", []⟩], some "cur1"⟩,
       ⟨[⟨some "p2", []⟩], some "cur2"⟩,
       ⟨[⟨some "p3", []⟩], none⟩] := by
    refine ⟨⟨"cur1", rfl, by decide⟩, ⟨"cur2", rfl, by decide⟩, Or.inl rfl⟩
  have := (C8_pagination _ h).1
  simpa using this

/-- Claim C10: github convert_to_focus computes BilledCost as
float(Decimal(str(quantity)) * Decimal(str(pricePerUnit))), independent of
the API-reported netAmount; netAmount, quantity, unit_type and unit_price
appear only as tags and each of those tags is omitted exactly when its source
value is falsy (0, empty string, or missing). -/
theorem C10_github_cost_and_tags (topicsOf : String → List String)
    (item : GithubUsageItem) (billing_start billing_end : PyDate) (n : Option ℚ) :
    (github_convert_to_focus topicsOf item billing_start billing_end).billedCost
      = pyFloat (item.quantity.getD 0 * item.pricePerUnit.getD 0)
    ∧ (github_convert_to_focus topicsOf { item with netAmount := n }
        billing_start billing_end).billedCost
      = (github_convert_to_focus topicsOf item billing_start billing_end).billedCost
    ∧ getTag (github_convert_to_focus topicsOf item billing_start billing_end) "quantity"
      = (if item.quantity.getD 0 ≠ 0
         then some (TagVal.num (item.quantity.getD 0)) else none)
    ∧ getTag (github_convert_to_focus topicsOf item billing_start billing_end) "unit_type"
      = (if item.unitType.getD "" ≠ ""
         then some (TagVal.str (item.unitType.getD "")) else none)
    ∧ getTag (github_convert_to_focus topicsOf item billing_start billing_end) "unit_price"
      = (if item.pricePerUnit.getD 0 ≠ 0
         then some (TagVal.num (item.pricePerUnit.getD 0)) else none)
    ∧ getTag (github_convert_to_focus topicsOf item billing_start billing_end) "net_amount"
      = (if item.netAmount.getD 0 ≠ 0
         then some (TagVal.num (item.netAmount.getD 0)) else none) := by
  refine ⟨rfl, rfl, ?_, ?_, ?_, ?_⟩ <;>
    · simp only [getTag, github_convert_to_focus]
      split_ifs <;> simp_all [List.find?]

/-- Claim C5 as stated is false for the github pipeline: a repository named
game-ops-stage with no service topic is tagged with the whole repository name
as service and gets no env tag, instead of the claimed rsplit into service
game-ops and env stage (which is what the neon derivation produces). -/
theorem C5_counterexample :
    getTag (github_convert_to_focus (fun _ => [])
        { product := some "Actions"
          sku := some "Compute"
          repositoryName := some "game-ops-stage"
          quantity := some 0
          unitType := some ""
          pricePerUnit := some 0
          netAmount := some 0 } someDate someDate) "service"
      = some (TagVal.str "game-ops-stage")
    ∧ getTag (github_convert_to_focus (fun _ => [])
        { product := some "Actions"
          sku := some "Compute"
          repositoryName := some "game-ops-stage"
          quantity := some 0
          unitType := some ""
          pricePerUnit := some 0
          netAmount := some 0 } someDate someDate) "env" = none
    ∧ TagVal.str "game-ops-stage" ≠ TagVal.str "game-ops"
    ∧ neonServiceEnv "game-ops-stage" = ("game-ops", "stage") := by
  refine ⟨by decide, by decide, by decide, by decide⟩

/-- Claim C5, amended: the neon synthesizer derives service and env by
splitting the project name at its right-most hyphen (whole name and env
unknown when no hyphen) and never consults labels; the github synthesizer
uses the suffix of the first service- topic when one exists and otherwise the
whole repository name, emitting no env tag in either case. -/
theorem C5_attribution :
    neonServiceEnv "game-ops-stage" = ("game-ops", "stage")
    ∧ neonServiceEnv "worker" = ("worker", "unknown")
    ∧ (∀ (costs : DailyCosts) (metrics : DailyMetrics) (date : PyDate)
         (p : ProjectInfo),
        ∀ r ∈ neon_convert_to_focus costs metrics date (some p),
          getTag r "service" = some (TagVal.str (neonServiceEnv p.name).1)
          ∧ getTag r "env" = some (TagVal.str (neonServiceEnv p.name).2))
    ∧ (∀ (topicsOf : String → List String) (item : GithubUsageItem)
         (bs be : PyDate) (repo topic : String),
        item.repositoryName = some repo → repo ≠ "" →
        (topicsOf repo).find? (fun t => pyStartsWith "service-" t) = some topic →
        getTag (github_convert_to_focus topicsOf item bs be) "service"
          = some (TagVal.str (pyDrop8 topic)))
    ∧ (∀ (topicsOf : String → List String) (item : GithubUsageItem)
         (bs be : PyDate) (repo : String),
        item.repositoryName = some repo → repo ≠ "" →
        (topicsOf repo).find? (fun t => pyStartsWith "service-" t) = none →
        getTag (github_convert_to_focus topicsOf item bs be) "service"
          = some (TagVal.str repo)
        ∧ getTag (github_convert_to_focus topicsOf item bs be) "env" = none) := by
  refine ⟨by decide, by decide, ?_, ?_, ?_⟩
  · intro costs metrics date p r hr
    simp only [neon_convert_to_focus] at hr
    rcases List.mem_append.mp hr with hr' | h3
    · rcases List.mem_append.mp hr' with h1 | h2
      · by_cases hc : costs.compute_cost > 0
        · rw [if_pos hc] at h1
          simp only [List.mem_singleton] at h1
          subst h1
          constructor <;> simp [getTag, neonProjectTags, List.find?]
        · rw [if_neg hc] at h1
          simp at h1
      · by_cases hc : costs.storage_cost > 0
        · rw [if_pos hc] at h2
          simp only [List.mem_singleton] at h2
          subst h2
          constructor <;> simp [getTag, neonProjectTags, List.find?]
        · rw [if_neg hc] at h2
          simp at h2
    · by_cases hc : costs.data_transfer_cost > 0
      · rw [if_pos hc] at h3
        simp only [List.mem_singleton] at h3
        subst h3
        constructor <;> simp [getTag, neonProjectTags, List.find?]
      · rw [if_neg hc] at h3
        simp at h3
  · intro topicsOf item bs be repo topic hrepo hne hfind
    simp only [github_convert_to_focus, getTag, hrepo, Option.getD_some, hfind,
               if_pos hne]
    split_ifs <;> simp [List.find?, hne]
  · intro topicsOf item bs be repo hrepo hne hfind
    constructor <;>
      · simp only [github_convert_to_focus, getTag, hrepo, Option.getD_some, hfind,
                   if_pos hne]
        split_ifs <;> simp [List.find?, hne]

/-- Witness for the amended C5: a service-payments topic overrides the
repository name billing-api, and with no service topic the service tag is the
repository name game-ops-stage with no env tag. -/
theorem C5_attribution_witness :
    getTag (github_convert_to_focus (fun _ => ["infra", "service-payments"])
        { product := some "Actions"
          sku := some "Compute"
          repositoryName := some "billing-api"
          quantity := some 0
          unitType := some ""
          pricePerUnit := some 0
          netAmount := some 0 } someDate someDate) "service"
      = some (TagVal.str "payments")
    ∧ getTag (github_convert_to_focus (fun _ => [])
        { product := some "Actions"
          sku := some "Compute"
          repositoryName := some "game-ops-stage"
          quantity := some 0
          unitType := some ""
          pricePerUnit := some 0
          netAmount := some 0 } someDate someDate) "env" = none := by
  constructor
  · have h := C5_attribution.2.2.2.1 (fun _ => ["infra", "service-payments"])
      { product := some "Actions"
        sku := some "Compute"
        repositoryName := some "billing-api"
        quantity := some 0
        unitType := some ""
        pricePerUnit := some 0
        netAmount := some 0 } someDate someDate "billing-api" "service-payments"
      rfl (by decide) (by decide)
    simpa using h
  · exact (C5_attribution.2.2.2.2 (fun _ => [])
      { product := some "Actions"
        sku := some "Compute"
        repositoryName := some "game-ops-stage"
        quantity := some 0
        unitType := some ""
        pricePerUnit := some 0
        netAmount := some 0 } someDate someDate "game-ops-stage"
      rfl (by decide) (by decide)).2

/-- Claim C7 as stated is false at a zero byte count: with identical storage
of 0 bytes, the daily storage cost is 0 in February 2023 (28 days) and 0 in
January 2023 (31 days), so the 28-day cost is not strictly greater. -/
theorem C7_counterexample :
    daysInMonth 2023 2 = 28
    ∧ daysInMonth 2023 1 = 31
    ∧ storageCostDec ⟨"", "", 0, 0, 0, 0, 0⟩ ⟨2023, 2, 10⟩ = 0
    ∧ storageCostDec ⟨"", "", 0, 0, 0, 0, 0⟩ ⟨2023, 1, 10⟩ = 0
    ∧ ¬ (storageCostDec ⟨"", "", 0, 0, 0, 0, 0⟩ ⟨2023, 1, 10⟩
          < storageCostDec ⟨"", "", 0, 0, 0, 0, 0⟩ ⟨2023, 2, 10⟩) := by
  have h2 : storageCostDec ⟨"", "", 0, 0, 0, 0, 0⟩ ⟨2023, 2, 10⟩ = 0 := by
    norm_num [storageCostDec, storageGbDec, PRICING]
  have h1 : storageCostDec ⟨"", "", 0, 0, 0, 0, 0⟩ ⟨2023, 1, 10⟩ = 0 := by
    norm_num [storageCostDec, storageGbDec, PRICING]
  exact ⟨by decide, by decide, h2, h1, by rw [h1, h2]; exact lt_irrefl 0⟩

/-- Claim C7, amended: for a strictly positive identical byte count, the
daily storage cost in a 28-day month is strictly greater than in a 31-day
month. -/
theorem C7_short_month_dearer (m1 m2 : DailyMetrics) (d1 d2 : PyDate)
    (hb : m1.storage_bytes = m2.storage_bytes) (hpos : 0 < m1.storage_bytes)
    (h28 : daysInMonth d1.year d1.month = 28)
    (h31 : daysInMonth d2.year d2.month = 31) :
    storageCostDec m2 d2 < storageCostDec m1 d1 := by
  unfold storageCostDec storageGbDec
  rw [h28, h31, ← hb]
  have hc : (0 : ℚ) < m1.storage_bytes / 1073741824 * PRICING.storage_per_gb_month := by
    have : (0 : ℚ) < PRICING.storage_per_gb_month := by norm_num [PRICING]
    positivity
  exact div_lt_div_of_pos_left hc (by norm_num) (by norm_num)

/-- Witness for the amended C7: one GiB of storage costs strictly more per
day in February 2023 than in January 2023. -/
theorem C7_short_month_dearer_witness :
    storageCostDec ⟨"", "", 0, 1073741824, 1073741824, 0, 0⟩ ⟨2023, 1, 10⟩
      < storageCostDec ⟨"", "", 0, 1073741824, 1073741824, 0, 0⟩ ⟨2023, 2, 10⟩ :=
  C7_short_month_dearer
    ⟨"", "", 0, 1073741824, 1073741824, 0, 0⟩
    ⟨"", "", 0, 1073741824, 1073741824, 0, 0⟩
    ⟨2023, 2, 10⟩ ⟨2023, 1, 10⟩ rfl (by norm_num) (by decide) (by decide)
